import Mathlib

/-
Verification of the Arkive offline-first data layer (src/unnamed/part_000,
class DatabaseService, dbVersion 7) against its natural-language
specification.  Records are shallowly embedded with Date replaced by Nat
timestamps and TypeScript optionals by Option.  IndexedDB object stores are
embedded as lists of records keyed by the `id` field; `add` fails when the
key or a declared unique index value is already present, `put` is
insert-or-replace, and a request failure aborts the whole transaction
(IndexedDB default, no preventDefault in the source).  Fresh UUIDs
(crypto.randomUUID) and clock reads (new Date()) are passed as parameters.
The firebaseSync service is not part of the sources; the pieces of it that
the claims need (the sync queue and the per-store pulls) are modelled from
the specification and marked as such.
-/

set_option autoImplicit false

namespace Arkive

/-- Role of a user, from the User interface in src/src/types/index.ts. -/
inductive Role where
  | admin
  | employee
deriving DecidableEq

/-- Client type field, from the Client interface. -/
inductive ClientType where
  | iris
  | secp
  | pra
  | other
deriving DecidableEq

/-- Payment method of a receipt. -/
inductive PaymentMethod where
  | cash
  | bankTransfer
  | cheque
  | card
  | online
deriving DecidableEq

/-- Expense category. -/
inductive ExpenseCategory where
  | office
  | utilities
  | supplies
  | maintenance
  | food
  | rent
  | salary
  | other
deriving DecidableEq

/-- Notification type field. -/
inductive NotifType where
  | info
  | warning
  | error
  | success
deriving DecidableEq

/-- Document fileType field. -/
inductive DocFileType where
  | cnic
  | taxFile
  | contract
  | invoice
  | other
deriving DecidableEq

/-- Action recorded in a document access log entry. -/
inductive AccessAction where
  | view
  | download
  | upload
deriving DecidableEq

/-- Employee status field. -/
inductive EmployeeStatus where
  | active
  | inactive
  | terminated
deriving DecidableEq

/-- Employee role field. -/
inductive EmployeeRole where
  | employee
  | manager
deriving DecidableEq

/-- Attendance status field. -/
inductive AttendanceStatus where
  | present
  | absent
  | late
  | halfDay
  | leave
deriving DecidableEq

/-- User record (src/src/types/index.ts).  Dates are Nat timestamps. -/
structure User where
  id : String
  username : String
  password : String
  role : Role
  createdAt : Nat
  lastLogin : Option Nat
  lastModified : Option Nat
deriving DecidableEq

/-- Client record.  The cnic field is the declared unique secondary key. -/
structure Client where
  id : String
  name : String
  cnic : String
  password : String
  type : ClientType
  phone : Option String
  email : Option String
  notes : Option String
  createdAt : Nat
  updatedAt : Nat
  lastModified : Option Nat
deriving DecidableEq

/-- Receipt record; clientCnic is the by-value reference to a client. -/
structure Receipt where
  id : String
  clientName : String
  clientCnic : String
  amount : Nat
  natureOfWork : String
  paymentMethod : PaymentMethod
  date : Nat
  createdAt : Nat
  createdBy : String
  lastModified : Option Nat
deriving DecidableEq

/-- Expense record. -/
structure Expense where
  id : String
  description : String
  amount : Nat
  category : ExpenseCategory
  date : Nat
  createdAt : Nat
  createdBy : String
  lastModified : Option Nat
deriving DecidableEq

/-- Activity record.  Note: the Activity interface in src/src/types/index.ts
declares no lastModified field at all. -/
structure Activity where
  id : String
  userId : String
  action : String
  details : String
  timestamp : Nat
deriving DecidableEq

/-- Uniform read of a modification timestamp off an Activity: the Activity
interface declares no lastModified field, so this is constantly none. -/
def Activity.lastModifiedOf (_ : Activity) : Option Nat := none

/-- Notification record.  Like Activity, it has no lastModified field. -/
structure Notification where
  id : String
  message : String
  type : NotifType
  read : Bool
  createdAt : Nat
deriving DecidableEq

/-- One entry of a document access log. -/
structure AccessEntry where
  userId : String
  timestamp : Nat
  action : AccessAction
deriving DecidableEq

/-- Document record (vault). -/
structure Document where
  id : String
  clientCnic : String
  fileName : String
  fileType : DocFileType
  fileSize : Nat
  mimeType : String
  encryptedData : String
  tags : List String
  uploadedBy : String
  uploadedAt : Nat
  lastAccessed : Option Nat
  lastModified : Option Nat
  accessLog : List AccessEntry
deriving DecidableEq

/-- Employee record (dbVersion 7 adds the employees store). -/
structure Employee where
  id : String
  employeeId : String
  name : String
  email : String
  phone : String
  position : String
  department : String
  salary : Nat
  joinDate : Nat
  status : EmployeeStatus
  username : String
  password : String
  role : EmployeeRole
  createdAt : Nat
  updatedAt : Nat
  lastModified : Option Nat
deriving DecidableEq

/-- Attendance record. -/
structure Attendance where
  id : String
  employeeId : String
  date : Nat
  checkIn : Option Nat
  checkOut : Option Nat
  status : AttendanceStatus
  notes : Option String
  workingHours : Option Nat
  createdAt : Nat
  lastModified : Option Nat
deriving DecidableEq

/-- The singleton record of the sync_metadata store (id "last_sync"). -/
structure SyncMeta where
  id : String
  timestamp : Nat
  deviceId : String
deriving DecidableEq

/-- The kind of a queued sync operation (the `type` field passed to
firebaseSync.addToSyncQueue in src/unnamed/part_000). -/
inductive SyncOp where
  | create
  | update
  | delete
deriving DecidableEq

/-- Modelled from the spec: firebaseSync (the Sync Queue / Outbox service) is
not under src/; only its call sites are.  Spec section 3 defines an Outbox
Entry as operation + collection + payload; the call sites pass
(type, store, data).  The payload is abbreviated to the id of the record it
carries, which is all the claims inspect. -/
structure SyncQueueEntry where
  type : SyncOp
  store : String
  dataId : String
deriving DecidableEq

/-- The contents of all IndexedDB object stores of arkive-database v7
(sync_metadata is the reserved metadata store; the Outbox lives in the
separate firebaseSync service). -/
structure DBState where
  users : List User
  clients : List Client
  receipts : List Receipt
  expenses : List Expense
  activities : List Activity
  notifications : List Notification
  documents : List Document
  employees : List Employee
  attendance : List Attendance
  syncMeta : Option SyncMeta
deriving DecidableEq

/-- Full engine state: the local database plus the (spec-modelled) sync
queue of not-yet-acknowledged mutations. -/
structure EngineState where
  db : DBState
  outbox : List SyncQueueEntry
deriving DecidableEq

/-- Modelled from the spec: the Outbox size() accessor of spec section 4.2. -/
def outboxSize (s : EngineState) : Nat := s.outbox.length

/-- Modelled from the spec: appending one entry to the sync queue when the
firebaseSync.addToSyncQueue promise resolves; when it rejects the caller
swallows the rejection (the .catch(console.warn) at every call site) and the
queue is unchanged.  pushOk is the outcome of that promise. -/
def enqueue (pushOk : Bool) (q : List SyncQueueEntry) (e : SyncQueueEntry) :
    List SyncQueueEntry :=
  if pushOk then q ++ [e] else q

/-- Errors surfaced synchronously by the local store.  A unique-key clash on
an IndexedDB add/put rejects the request and aborts the transaction. -/
inductive DBError where
  | constraintViolation
deriving DecidableEq

/-- IndexedDB put (insert-or-replace) on a store embedded as a list keyed by
`key`: records with the same key are replaced, otherwise the record is
appended. -/
def putBy {α : Type} (key : α → String) (r : α) (l : List α) : List α :=
  if l.any (fun x => key x == key r) then
    l.map (fun x => if key x == key r then r else x)
  else
    l ++ [r]

/-- Input to createUser: Omit of User without id, with the fields the method
overrides (createdAt, lastModified) dropped since their input values are
discarded by the spread. -/
structure UserNew where
  username : String
  password : String
  role : Role
  lastLogin : Option Nat
deriving DecidableEq

/-- Input to createClient: Omit of Client without id/createdAt/updatedAt,
with lastModified dropped (overridden by the spread). -/
structure ClientNew where
  name : String
  cnic : String
  password : String
  type : ClientType
  phone : Option String
  email : Option String
  notes : Option String
deriving DecidableEq

/-- Input to createReceipt: Omit of Receipt without id/createdAt, with
lastModified dropped (overridden). -/
structure ReceiptNew where
  clientName : String
  clientCnic : String
  amount : Nat
  natureOfWork : String
  paymentMethod : PaymentMethod
  date : Nat
  createdBy : String
deriving DecidableEq

/-- Input to createExpense: Omit of Expense without id/createdAt, with
lastModified dropped (overridden). -/
structure ExpenseNew where
  description : String
  amount : Nat
  category : ExpenseCategory
  date : Nat
  createdBy : String
deriving DecidableEq

/-- Input to createActivity: Omit of Activity without id.  Every remaining
field, including the timestamp, is caller-supplied and stored verbatim. -/
structure ActivityNew where
  userId : String
  action : String
  details : String
  timestamp : Nat
deriving DecidableEq

/-- Input to createNotification: Omit of Notification without id. -/
structure NotificationNew where
  message : String
  type : NotifType
  read : Bool
  createdAt : Nat
deriving DecidableEq

/-- Input to createDocument: Omit of Document without id/uploadedAt/accessLog,
with lastModified dropped (overridden); lastAccessed passes through. -/
structure DocumentNew where
  clientCnic : String
  fileName : String
  fileType : DocFileType
  fileSize : Nat
  mimeType : String
  encryptedData : String
  tags : List String
  uploadedBy : String
  lastAccessed : Option Nat
deriving DecidableEq

/-- The notification message built by createClient.  Template-string
interpolation is embedded as string append. -/
def clientMessage (name cnic : String) : String :=
  "New client registered: " ++ name ++ " (" ++ cnic ++ ")"

/-- The notification message built by createReceipt.  The locale rendering of
amount.toLocaleString() is abstracted as decimal toString. -/
def receiptMessage (amount : Nat) (clientName : String) : String :=
  "New receipt created: Rs. " ++ toString amount ++ " for " ++ clientName

/-- DatabaseService.createUser: enqueues one create entry (fire-and-forget,
before the store.add), then adds the stamped record; the add fails when the
id or the unique username index clashes. -/
def createUser (u : UserNew) (now : Nat) (uid : String) (pushOk : Bool)
    (s : EngineState) : Except DBError User × EngineState :=
  let newUser : User :=
    ⟨uid, u.username, u.password, u.role, now, u.lastLogin, some now⟩
  let ob := enqueue pushOk s.outbox ⟨.create, "users", newUser.id⟩
  if s.db.users.any (fun v => v.id == uid || v.username == u.username) then
    (.error .constraintViolation, { s with outbox := ob })
  else
    (.ok newUser,
      { s with db := { s.db with users := s.db.users ++ [newUser] }, outbox := ob })

/-- DatabaseService.updateUser: enqueues one update entry, then puts the
record with a refreshed lastModified; the put fails when another user holds
the same unique username. -/
def updateUser (u : User) (now : Nat) (pushOk : Bool) (s : EngineState) :
    Except DBError Unit × EngineState :=
  let updatedUser : User := { u with lastModified := some now }
  let ob := enqueue pushOk s.outbox ⟨.update, "users", updatedUser.id⟩
  if s.db.users.any (fun v => v.id != u.id && v.username == u.username) then
    (.error .constraintViolation, { s with outbox := ob })
  else
    (.ok (),
      { s with db := { s.db with users := putBy (fun v => v.id) updatedUser s.db.users },
               outbox := ob })

/-- DatabaseService.deleteUser: enqueues one delete entry and removes the
record by id. -/
def deleteUser (uid : String) (pushOk : Bool) (s : EngineState) :
    Except DBError Unit × EngineState :=
  let ob := enqueue pushOk s.outbox ⟨.delete, "users", uid⟩
  (.ok (),
    { s with db := { s.db with users := s.db.users.filter (fun v => v.id != uid) },
             outbox := ob })

/-- DatabaseService.createClient: enqueues one create entry for the client
(none for the companion notification), then adds client and notification in
one transaction over both stores; a clash on the client id, the unique cnic
index, or the notification id rejects the request and aborts the whole
transaction, so neither record becomes visible.  The enqueue precedes the
transaction and is issued whether or not it commits. -/
def createClient (c : ClientNew) (now : Nat) (cid nid : String) (pushOk : Bool)
    (s : EngineState) : Except DBError Client × EngineState :=
  let newClient : Client :=
    ⟨cid, c.name, c.cnic, c.password, c.type, c.phone, c.email, c.notes,
      now, now, some now⟩
  let notification : Notification :=
    ⟨nid, clientMessage c.name c.cnic, .info, false, now⟩
  let ob := enqueue pushOk s.outbox ⟨.create, "clients", newClient.id⟩
  if s.db.clients.any (fun v => v.id == cid || v.cnic == c.cnic)
      || s.db.notifications.any (fun v => v.id == nid) then
    (.error .constraintViolation, { s with outbox := ob })
  else
    let db1 : DBState := { s.db with
      clients := s.db.clients ++ [newClient]
      notifications := s.db.notifications ++ [notification] }
    (.ok newClient, { s with db := db1, outbox := ob })

/-- DatabaseService.updateClient: enqueues one update entry, then puts the
record with refreshed updatedAt and lastModified; the put fails when another
client holds the same unique cnic. -/
def updateClient (c : Client) (now : Nat) (pushOk : Bool) (s : EngineState) :
    Except DBError Unit × EngineState :=
  let updatedClient : Client := { c with updatedAt := now, lastModified := some now }
  let ob := enqueue pushOk s.outbox ⟨.update, "clients", updatedClient.id⟩
  if s.db.clients.any (fun v => v.id != c.id && v.cnic == c.cnic) then
    (.error .constraintViolation, { s with outbox := ob })
  else
    (.ok (),
      { s with db := { s.db with clients := putBy (fun v => v.id) updatedClient s.db.clients },
               outbox := ob })

/-- DatabaseService.deleteClient: finds the client by id; when absent it
resolves without touching anything.  When present it deletes, inside one
transaction over clients and receipts, every receipt whose clientCnic equals
the client's cnic (cursor walk) and then the client itself.  No
addToSyncQueue call appears anywhere in this method. -/
def deleteClient (i : String) (s : EngineState) :
    Except DBError Unit × EngineState :=
  match s.db.clients.find? (fun v => v.id == i) with
  | none => (.ok (), s)
  | some c =>
    (.ok (),
      { s with db := { s.db with
          clients := s.db.clients.filter (fun v => v.id != i),
          receipts := s.db.receipts.filter (fun r => r.clientCnic != c.cnic) } })

/-- DatabaseService.createReceipt: enqueues one create entry for the receipt
(none for the companion notification), then adds receipt and notification in
one transaction; an id clash aborts both. -/
def createReceipt (r : ReceiptNew) (now : Nat) (rid nid : String) (pushOk : Bool)
    (s : EngineState) : Except DBError Receipt × EngineState :=
  let newReceipt : Receipt :=
    ⟨rid, r.clientName, r.clientCnic, r.amount, r.natureOfWork, r.paymentMethod,
      r.date, now, r.createdBy, some now⟩
  let notification : Notification :=
    ⟨nid, receiptMessage r.amount r.clientName, .info, false, now⟩
  let ob := enqueue pushOk s.outbox ⟨.create, "receipts", newReceipt.id⟩
  if s.db.receipts.any (fun v => v.id == rid)
      || s.db.notifications.any (fun v => v.id == nid) then
    (.error .constraintViolation, { s with outbox := ob })
  else
    let db1 : DBState := { s.db with
      receipts := s.db.receipts ++ [newReceipt]
      notifications := s.db.notifications ++ [notification] }
    (.ok newReceipt, { s with db := db1, outbox := ob })

/-- DatabaseService.updateReceipt: enqueues one update entry and puts the
record with a refreshed lastModified (receipts have no unique secondary
index, so the put cannot clash). -/
def updateReceipt (r : Receipt) (now : Nat) (pushOk : Bool) (s : EngineState) :
    Except DBError Unit × EngineState :=
  let updatedReceipt : Receipt := { r with lastModified := some now }
  let ob := enqueue pushOk s.outbox ⟨.update, "receipts", updatedReceipt.id⟩
  (.ok (),
    { s with db := { s.db with receipts := putBy (fun v => v.id) updatedReceipt s.db.receipts },
             outbox := ob })

/-- DatabaseService.deleteReceipt: enqueues one delete entry and removes the
record by id. -/
def deleteReceipt (i : String) (pushOk : Bool) (s : EngineState) :
    Except DBError Unit × EngineState :=
  let ob := enqueue pushOk s.outbox ⟨.delete, "receipts", i⟩
  (.ok (),
    { s with db := { s.db with receipts := s.db.receipts.filter (fun v => v.id != i) },
             outbox := ob })

/-- DatabaseService.createExpense: enqueues one create entry, then adds the
stamped record (fails only on an id clash). -/
def createExpense (e : ExpenseNew) (now : Nat) (eid : String) (pushOk : Bool)
    (s : EngineState) : Except DBError Expense × EngineState :=
  let newExpense : Expense :=
    ⟨eid, e.description, e.amount, e.category, e.date, now, e.createdBy, some now⟩
  let ob := enqueue pushOk s.outbox ⟨.create, "expenses", newExpense.id⟩
  if s.db.expenses.any (fun v => v.id == eid) then
    (.error .constraintViolation, { s with outbox := ob })
  else
    (.ok newExpense,
      { s with db := { s.db with expenses := s.db.expenses ++ [newExpense] },
               outbox := ob })

/-- DatabaseService.updateExpense: enqueues one update entry and puts the
record with a refreshed lastModified. -/
def updateExpense (e : Expense) (now : Nat) (pushOk : Bool) (s : EngineState) :
    Except DBError Unit × EngineState :=
  let updatedExpense : Expense := { e with lastModified := some now }
  let ob := enqueue pushOk s.outbox ⟨.update, "expenses", updatedExpense.id⟩
  (.ok (),
    { s with db := { s.db with expenses := putBy (fun v => v.id) updatedExpense s.db.expenses },
             outbox := ob })

/-- DatabaseService.deleteExpense: enqueues one delete entry and removes the
record by id. -/
def deleteExpense (i : String) (pushOk : Bool) (s : EngineState) :
    Except DBError Unit × EngineState :=
  let ob := enqueue pushOk s.outbox ⟨.delete, "expenses", i⟩
  (.ok (),
    { s with db := { s.db with expenses := s.db.expenses.filter (fun v => v.id != i) },
             outbox := ob })

/-- DatabaseService.createActivity: adds the record with a fresh id only.  No
timestamp is stamped (the stored record is the input spread plus id) and no
sync-queue call is made. -/
def createActivity (a : ActivityNew) (aid : String) (s : EngineState) :
    Except DBError Activity × EngineState :=
  let newActivity : Activity := ⟨aid, a.userId, a.action, a.details, a.timestamp⟩
  if s.db.activities.any (fun v => v.id == aid) then
    (.error .constraintViolation, s)
  else
    (.ok newActivity,
      { s with db := { s.db with activities := s.db.activities ++ [newActivity] } })

/-- DatabaseService.createNotification: adds the record with a fresh id only;
no sync-queue call is made. -/
def createNotification (n : NotificationNew) (nid : String) (s : EngineState) :
    Except DBError Notification × EngineState :=
  let newNotification : Notification := ⟨nid, n.message, n.type, n.read, n.createdAt⟩
  if s.db.notifications.any (fun v => v.id == nid) then
    (.error .constraintViolation, s)
  else
    (.ok newNotification,
      { s with db := { s.db with notifications := s.db.notifications ++ [newNotification] } })

/-- DatabaseService.markNotificationAsRead: gets the record, sets read and
puts it back; resolves silently when absent.  No sync-queue call. -/
def markNotificationAsRead (i : String) (s : EngineState) :
    Except DBError Unit × EngineState :=
  match s.db.notifications.find? (fun v => v.id == i) with
  | none => (.ok (), s)
  | some n =>
    (.ok (),
      { s with db := { s.db with
          notifications := putBy (fun v => v.id) { n with read := true } s.db.notifications } })

/-- DatabaseService.markAllNotificationsAsRead: puts every unread record back
with read set.  No sync-queue call. -/
def markAllNotificationsAsRead (s : EngineState) :
    Except DBError Unit × EngineState :=
  (.ok (),
    { s with db := { s.db with
        notifications := s.db.notifications.map (fun n => { n with read := true }) } })

/-- DatabaseService.createDocument: enqueues one create entry, then adds the
record stamped with id, uploadedAt, lastModified and the initial upload
access-log entry. -/
def createDocument (d : DocumentNew) (now : Nat) (did : String) (pushOk : Bool)
    (s : EngineState) : Except DBError Document × EngineState :=
  let newDocument : Document :=
    ⟨did, d.clientCnic, d.fileName, d.fileType, d.fileSize, d.mimeType,
      d.encryptedData, d.tags, d.uploadedBy, now, d.lastAccessed, some now,
      [⟨d.uploadedBy, now, .upload⟩]⟩
  let ob := enqueue pushOk s.outbox ⟨.create, "documents", newDocument.id⟩
  if s.db.documents.any (fun v => v.id == did) then
    (.error .constraintViolation, { s with outbox := ob })
  else
    (.ok newDocument,
      { s with db := { s.db with documents := s.db.documents ++ [newDocument] },
               outbox := ob })

/-- DatabaseService.updateDocument: enqueues one update entry and puts the
record with a refreshed lastModified. -/
def updateDocument (d : Document) (now : Nat) (pushOk : Bool) (s : EngineState) :
    Except DBError Unit × EngineState :=
  let updatedDocument : Document := { d with lastModified := some now }
  let ob := enqueue pushOk s.outbox ⟨.update, "documents", updatedDocument.id⟩
  (.ok (),
    { s with db := { s.db with documents := putBy (fun v => v.id) updatedDocument s.db.documents },
             outbox := ob })

/-- DatabaseService.deleteDocument: enqueues one delete entry and removes the
record by id. -/
def deleteDocument (i : String) (pushOk : Bool) (s : EngineState) :
    Except DBError Unit × EngineState :=
  let ob := enqueue pushOk s.outbox ⟨.delete, "documents", i⟩
  (.ok (),
    { s with db := { s.db with documents := s.db.documents.filter (fun v => v.id != i) },
             outbox := ob })

/-- DatabaseService.logDocumentAccess: when the document exists, stamps
lastAccessed/lastModified, appends an access-log entry, enqueues one update
entry (its promise is awaited via finally, the rejection still swallowed)
and puts the record; resolves silently when absent. -/
def logDocumentAccess (docId userId : String) (action : AccessAction) (now : Nat)
    (pushOk : Bool) (s : EngineState) : Except DBError Unit × EngineState :=
  match s.db.documents.find? (fun v => v.id == docId) with
  | none => (.ok (), s)
  | some d =>
    let updatedDocument : Document :=
      { d with lastAccessed := some now, lastModified := some now,
               accessLog := d.accessLog ++ [⟨userId, now, action⟩] }
    let ob := enqueue pushOk s.outbox ⟨.update, "documents", docId⟩
    (.ok (),
      { s with db := { s.db with documents := putBy (fun v => v.id) updatedDocument s.db.documents },
               outbox := ob })

/-- DatabaseService.clearStore: clears the named object store (no sync-queue
call); an unknown name leaves the database untouched. -/
def clearStore (name : String) (d : DBState) : DBState :=
  if name == "users" then { d with users := [] }
  else if name == "clients" then { d with clients := [] }
  else if name == "receipts" then { d with receipts := [] }
  else if name == "expenses" then { d with expenses := [] }
  else if name == "activities" then { d with activities := [] }
  else if name == "notifications" then { d with notifications := [] }
  else if name == "documents" then { d with documents := [] }
  else if name == "employees" then { d with employees := [] }
  else if name == "attendance" then { d with attendance := [] }
  else d

/-- DatabaseService.getDeviceId: reads arkive-device-id from localStorage
(embedded as an Option String); when absent it mints a fresh UUID (the
`fresh` parameter), persists it and returns it.  Returns the value paired
with the localStorage state after the call. -/
def getDeviceId (fresh : String) (ls : Option String) : String × Option String :=
  match ls with
  | some deviceId => (deviceId, some deviceId)
  | none => (fresh, some fresh)

/-- The parsed snapshot object built by exportData and consumed by importData
(the JSON.stringify/JSON.parse pair is abstracted away: claims are about the
collections the snapshot carries, not about the encoding). -/
structure Snapshot where
  users : List User
  clients : List Client
  receipts : List Receipt
  expenses : List Expense
  activities : List Activity
  notifications : List Notification
  documents : List Document
  exportDate : Nat
  version : Nat
  appName : String
  deviceId : String
deriving DecidableEq

/-- DatabaseService.exportData: reads all seven exported collections (the
employees and attendance stores are not exported) plus metadata, including
the device id (which may mint and persist a fresh id as a side effect on
localStorage, returned as the second component).  No sync-queue call. -/
def exportData (s : EngineState) (now : Nat) (fresh : String) (ls : Option String) :
    Snapshot × Option String :=
  let dev := getDeviceId fresh ls
  (⟨s.db.users, s.db.clients, s.db.receipts, s.db.expenses, s.db.activities,
     s.db.notifications, s.db.documents, now, 7, "Arkive", dev.1⟩, dev.2)

/-- Sequential IndexedDB add of a batch of records into a store (the
importStore for-loop): an add whose key already exists rejects, which stops
the loop there, so the records after the first duplicate are dropped.  The
Bool reports whether every add succeeded. -/
def addAll {α : Type} (key : α → String) : List α → List α → List α × Bool
  | [], acc => (acc, true)
  | x :: xs, acc =>
    if acc.any (fun y => key y == key x) then (acc, false)
    else addAll key xs (acc ++ [x])

/-- DatabaseService.importData: clears the seven snapshot stores, then
re-adds each snapshot list via importStore; importStore catches and swallows
add failures, so importData itself never rejects on data.  The employees,
attendance and sync_metadata stores and the sync queue are untouched: no
sync-queue call appears in the method. -/
def importData (snap : Snapshot) (s : EngineState) : EngineState :=
  { s with db := { s.db with
      users := (addAll (fun v => v.id) snap.users []).1
      clients := (addAll (fun v => v.id) snap.clients []).1
      receipts := (addAll (fun v => v.id) snap.receipts []).1
      expenses := (addAll (fun v => v.id) snap.expenses []).1
      activities := (addAll (fun v => v.id) snap.activities []).1
      notifications := (addAll (fun v => v.id) snap.notifications []).1
      documents := (addAll (fun v => v.id) snap.documents []).1 } }

/-- Modelled from the spec: firebaseSync.getStoreFromFirebase (pull-all per
collection, spec section 4.3) is not under src/.  A pull returns every
record the remote authority holds for the collection, or fails (none) on a
transport error.  One field per store syncFromFirebase pulls. -/
structure RemotePull where
  users : Option (List User)
  clients : Option (List Client)
  receipts : Option (List Receipt)
  expenses : Option (List Expense)
  activities : Option (List Activity)
  notifications : Option (List Notification)
  documents : Option (List Document)
  employees : Option (List Employee)
  attendance : Option (List Attendance)

/-- The combined result of all nine pulls of syncFromFirebase when each one
succeeds. -/
structure PulledData where
  users : List User
  clients : List Client
  receipts : List Receipt
  expenses : List Expense
  activities : List Activity
  notifications : List Notification
  documents : List Document
  employees : List Employee
  attendance : List Attendance

/-- The Promise.all over the nine getStoreFromFirebase calls at the top of
DatabaseService.syncFromFirebase: it fails as soon as any single pull fails,
before anything local is touched. -/
def RemotePull.all (r : RemotePull) : Option PulledData := do
  let us ← r.users
  let cs ← r.clients
  let rs ← r.receipts
  let es ← r.expenses
  let avs ← r.activities
  let ns ← r.notifications
  let ds ← r.documents
  let ems ← r.employees
  let ats ← r.attendance
  some ⟨us, cs, rs, es, avs, ns, ds, ems, ats⟩

/-- DatabaseService.syncFromFirebase: pulls all nine collections (Promise.all,
so a single failure aborts before any local write), then clears every one of
the nine stores and bulk re-adds the pulled records; an id duplicated inside
a pulled list makes that store's import stop there and the whole call
reject, with the stores already replaced.  No lastModified comparison of any
kind is performed: the local content is discarded wholesale.  sync_metadata
and the sync queue are untouched. -/
def syncFromFirebase (r : RemotePull) (s : EngineState) :
    Except Unit Unit × EngineState :=
  match r.all with
  | none => (.error (), s)
  | some p =>
    let iu := addAll (fun v => v.id) p.users []
    let ic := addAll (fun v => v.id) p.clients []
    let ir := addAll (fun v => v.id) p.receipts []
    let ie := addAll (fun v => v.id) p.expenses []
    let ia := addAll (fun v => v.id) p.activities []
    let inn := addAll (fun v => v.id) p.notifications []
    let idc := addAll (fun v => v.id) p.documents []
    let iem := addAll (fun v => v.id) p.employees []
    let iat := addAll (fun v => v.id) p.attendance []
    let allOk := iu.2 && ic.2 && ir.2 && ie.2 && ia.2 && inn.2 && idc.2 && iem.2 && iat.2
    let db1 : DBState := { s.db with
      users := iu.1
      clients := ic.1
      receipts := ir.1
      expenses := ie.1
      activities := ia.1
      notifications := inn.1
      documents := idc.1
      employees := iem.1
      attendance := iat.1 }
    (if allOk then .ok () else .error (), { s with db := db1 })

/-- Modelled from the spec: getSyncStatus (spec section 6) reports the number
of queued outbox entries plus the last sync time; it is the only channel
through which sync failures are observable. -/
def getSyncStatus (s : EngineState) (lastSyncAt : Option Nat) : Nat × Option Nat :=
  (outboxSize s, lastSyncAt)

/-- A batch add into a store succeeds and reproduces the batch exactly when
the keys (prefixed by the keys already present) are pairwise distinct. -/
theorem addAll_nodup_eq {α : Type} (key : α → String) (l acc : List α)
    (h : ((acc ++ l).map key).Nodup) : addAll key l acc = (acc ++ l, true) := by
  induction l generalizing acc with
  | nil => simp [addAll]
  | cons x xs ih =>
    have hx : acc.any (fun y => key y == key x) = false := by
      rw [Bool.eq_false_iff]
      intro hc
      rw [List.any_eq_true] at hc
      obtain ⟨y, hy, hyx⟩ := hc
      have hyx' : key y = key x := by simpa using hyx
      rw [List.map_append, List.nodup_append] at h
      exact h.2.2 (List.mem_map_of_mem key hy) (by simp [hyx'])
    rw [addAll, hx]
    simp only [Bool.false_eq_true, if_false]
    have h' : (((acc ++ [x]) ++ xs).map key).Nodup := by
      simpa [List.append_assoc] using h
    rw [ih (acc ++ [x]) h']
    simp

/-- find? over a store that did not yet hold the key finds a freshly appended
record. -/
theorem find?_append_fresh {α : Type} (key : α → String) (l : List α) (r : α)
    (i : String) (hk : key r = i)
    (h : l.any (fun x => key x == i) = false) :
    (l ++ [r]).find? (fun x => key x == i) = some r := by
  induction l with
  | nil => simp [List.find?, hk]
  | cons y ys ih =>
    rw [List.any_cons, Bool.or_eq_false_iff] at h
    simp only [List.cons_append, List.find?_cons, h.1]
    exact ih h.2

/-- find? after replacing every record matching the key yields the
replacement, provided some record matched. -/
theorem find?_map_put {α : Type} (key : α → String) (r : α) (l : List α)
    (h : l.any (fun x => key x == key r) = true) :
    (l.map (fun x => if key x == key r then r else x)).find?
      (fun x => key x == key r) = some r := by
  induction l with
  | nil => simp at h
  | cons y ys ih =>
    by_cases hy : (key y == key r) = true
    · rw [List.map_cons, if_pos hy]
      simp [List.find?_cons]
    · rw [Bool.not_eq_true] at hy
      rw [List.any_cons, hy, Bool.false_or] at h
      simp only [List.map_cons, hy, Bool.false_eq_true, if_false, List.find?_cons]
      exact ih h

/-- An IndexedDB put always leaves the store holding exactly the written
record under its key. -/
theorem find?_putBy {α : Type} (key : α → String) (r : α) (l : List α) :
    (putBy key r l).find? (fun x => key x == key r) = some r := by
  unfold putBy
  by_cases h : l.any (fun x => key x == key r) = true
  · rw [if_pos h]
    exact find?_map_put key r l h
  · rw [Bool.not_eq_true] at h
    rw [h]
    simp only [Bool.false_eq_true, if_false]
    exact find?_append_fresh key l r (key r) rfl h

/-- In a store with pairwise-distinct keys, find? locates any member by its
key. -/
theorem find?_of_mem_nodup {α : Type} (key : α → String) (l : List α) (r : α)
    (i : String) (hn : (l.map key).Nodup) (hm : r ∈ l) (hk : key r = i) :
    l.find? (fun x => key x == i) = some r := by
  induction l with
  | nil => cases hm
  | cons y ys ih =>
    rw [List.map_cons, List.nodup_cons] at hn
    rcases List.mem_cons.mp hm with rfl | hm'
    · simp [List.find?_cons, hk]
    · have hy : (key y == i) = false := by
        rw [Bool.eq_false_iff]
        intro hc
        have hc' : key y = i := by simpa using hc
        have hmem : key y ∈ ys.map key := by
          rw [hc', ← hk]
          exact List.mem_map_of_mem key hm'
        exact hn.1 hmem
      simp only [List.find?_cons, hy]
      exact ih hn.2 hm'

/-- The freshly opened, empty database. -/
def emptyDB : DBState := ⟨[], [], [], [], [], [], [], [], [], none⟩

/-- Empty engine state: empty database, empty sync queue. -/
def st0 : EngineState := ⟨emptyDB, []⟩

/-- A sample activity input. -/
def act0 : ActivityNew := ⟨"u1", "login", "d", 3⟩

/-- A sample client (id c1, cnic 1234567890123). -/
def clientC1 : Client :=
  ⟨"c1", "Ali", "1234567890123", "pw", .iris, none, none, none, 0, 0, some 0⟩

/-- A receipt referencing clientC1 by cnic. -/
def receiptFor (i : String) : Receipt :=
  ⟨i, "Ali", "1234567890123", 100, "tax", .cash, 1, 1, "u1", some 1⟩

/-- State holding client c1 together with its three receipts and an empty
sync queue. -/
def st2 : EngineState :=
  ⟨{ emptyDB with
      clients := [clientC1]
      receipts := [receiptFor "r1", receiptFor "r2", receiptFor "r3"] }, []⟩

/-- Claim C9 (confirmed): the device identifier is generated exactly once.
The first getDeviceId call on a blank localStorage mints and persists the
fresh id; any call on a populated localStorage returns the stored value
unchanged; and a second call after any first call returns exactly what the
first call left persisted (idempotence on the stored state). -/
theorem C9_deviceId_once :
    (∀ fresh : String, getDeviceId fresh none = (fresh, some fresh)) ∧
    (∀ fresh d : String, getDeviceId fresh (some d) = (d, some d)) ∧
    (∀ (f1 f2 : String) (ls : Option String),
      getDeviceId f2 (getDeviceId f1 ls).2 =
        ((getDeviceId f1 ls).1, (getDeviceId f1 ls).2)) := by
  refine ⟨fun _ => rfl, fun _ _ => rfl, ?_⟩
  intro f1 f2 ls
  cases ls <;> rfl

/-- Claim C10 (confirmed): deleteClient with an id absent from the clients
collection resolves successfully and returns the state completely unchanged
(every collection and the sync queue included). -/
theorem C10_deleteClient_missing_noop (i : String) (s : EngineState)
    (h : s.db.clients.find? (fun v => v.id == i) = none) :
    deleteClient i s = (.ok (), s) := by
  unfold deleteClient
  rw [h]

/-- Witness for C10 at a concrete absent id over a populated store. -/
theorem C10_witness : deleteClient "absent" st2 = (.ok (), st2) :=
  C10_deleteClient_missing_noop "absent" st2 (by decide)

/-- Claim C5 (confirmed): a createClient whose cnic already exists in the
clients collection fails synchronously with a constraint violation and the
transaction aborts entirely: neither the client nor the companion
notification becomes visible (the whole database is unchanged). -/
theorem C5_cnic_constraint_violation (c : ClientNew) (now : Nat)
    (cid nid : String) (pushOk : Bool) (s : EngineState)
    (h : s.db.clients.any (fun v => v.cnic == c.cnic) = true) :
    (createClient c now cid nid pushOk s).1 = .error .constraintViolation ∧
    (createClient c now cid nid pushOk s).2.db = s.db := by
  have hc : (s.db.clients.any (fun v => v.id == cid || v.cnic == c.cnic)
      || s.db.notifications.any (fun v => v.id == nid)) = true := by
    rw [List.any_eq_true] at h
    obtain ⟨v, hv, hvc⟩ := h
    have hone : s.db.clients.any (fun v => v.id == cid || v.cnic == c.cnic) = true := by
      rw [List.any_eq_true]
      exact ⟨v, hv, by simp [hvc]⟩
    simp [hone]
  simp only [createClient, hc]
  exact ⟨rfl, rfl⟩

/-- A client input clashing with clientC1 on the unique cnic index. -/
def dupClientNew : ClientNew :=
  ⟨"Someone", "1234567890123", "pw2", .other, none, none, none⟩

/-- Witness for C5: the duplicate-cnic create fails and leaves the database
untouched. -/
theorem C5_witness :
    (createClient dupClientNew 7 "c9" "n9" true st2).1 = .error .constraintViolation ∧
    (createClient dupClientNew 7 "c9" "n9" true st2).2.db = st2.db :=
  C5_cnic_constraint_violation dupClientNew 7 "c9" "n9" true st2 (by decide)

/-- Claim C1, amended (corrected): each mutating operation on the synced
collections (users, clients, receipts, expenses, documents) issues exactly
one sync-queue enqueue per call — stated here with the enqueue succeeding —
but the enqueue is fired before the IndexedDB write, outside its
transaction, and therefore happens whether or not the local write commits;
createClient/createReceipt enqueue nothing for their companion
notifications; logDocumentAccess enqueues one update entry exactly when the
document exists; and createActivity, createNotification,
markNotificationAsRead, markAllNotificationsAsRead and deleteClient enqueue
nothing at all, so outboxSize counts only synced-collection enqueues, not
committed mutations. -/
theorem C1_enqueue_discipline :
    (∀ (u : UserNew) (now : Nat) (uid : String) (s : EngineState),
      (createUser u now uid true s).2.outbox = s.outbox ++ [⟨.create, "users", uid⟩]) ∧
    (∀ (u : User) (now : Nat) (s : EngineState),
      (updateUser u now true s).2.outbox = s.outbox ++ [⟨.update, "users", u.id⟩]) ∧
    (∀ (i : String) (s : EngineState),
      (deleteUser i true s).2.outbox = s.outbox ++ [⟨.delete, "users", i⟩]) ∧
    (∀ (c : ClientNew) (now : Nat) (cid nid : String) (s : EngineState),
      (createClient c now cid nid true s).2.outbox = s.outbox ++ [⟨.create, "clients", cid⟩]) ∧
    (∀ (c : Client) (now : Nat) (s : EngineState),
      (updateClient c now true s).2.outbox = s.outbox ++ [⟨.update, "clients", c.id⟩]) ∧
    (∀ (r : ReceiptNew) (now : Nat) (rid nid : String) (s : EngineState),
      (createReceipt r now rid nid true s).2.outbox = s.outbox ++ [⟨.create, "receipts", rid⟩]) ∧
    (∀ (r : Receipt) (now : Nat) (s : EngineState),
      (updateReceipt r now true s).2.outbox = s.outbox ++ [⟨.update, "receipts", r.id⟩]) ∧
    (∀ (i : String) (s : EngineState),
      (deleteReceipt i true s).2.outbox = s.outbox ++ [⟨.delete, "receipts", i⟩]) ∧
    (∀ (e : ExpenseNew) (now : Nat) (eid : String) (s : EngineState),
      (createExpense e now eid true s).2.outbox = s.outbox ++ [⟨.create, "expenses", eid⟩]) ∧
    (∀ (e : Expense) (now : Nat) (s : EngineState),
      (updateExpense e now true s).2.outbox = s.outbox ++ [⟨.update, "expenses", e.id⟩]) ∧
    (∀ (i : String) (s : EngineState),
      (deleteExpense i true s).2.outbox = s.outbox ++ [⟨.delete, "expenses", i⟩]) ∧
    (∀ (d : DocumentNew) (now : Nat) (did : String) (s : EngineState),
      (createDocument d now did true s).2.outbox = s.outbox ++ [⟨.create, "documents", did⟩]) ∧
    (∀ (d : Document) (now : Nat) (s : EngineState),
      (updateDocument d now true s).2.outbox = s.outbox ++ [⟨.update, "documents", d.id⟩]) ∧
    (∀ (i : String) (s : EngineState),
      (deleteDocument i true s).2.outbox = s.outbox ++ [⟨.delete, "documents", i⟩]) ∧
    (∀ (docId userId : String) (a : AccessAction) (now : Nat) (s : EngineState),
      (logDocumentAccess docId userId a now true s).2.outbox =
        (match s.db.documents.find? (fun v => v.id == docId) with
          | none => s.outbox
          | some _ => s.outbox ++ [⟨.update, "documents", docId⟩])) ∧
    (∀ (i : String) (s : EngineState), (deleteClient i s).2.outbox = s.outbox) ∧
    (∀ (a : ActivityNew) (aid : String) (s : EngineState),
      (createActivity a aid s).2.outbox = s.outbox) ∧
    (∀ (n : NotificationNew) (nid : String) (s : EngineState),
      (createNotification n nid s).2.outbox = s.outbox) ∧
    (∀ (i : String) (s : EngineState),
      (markNotificationAsRead i s).2.outbox = s.outbox) ∧
    (∀ (s : EngineState), (markAllNotificationsAsRead s).2.outbox = s.outbox) := by
  refine ⟨?_, ?_, ?_, ?_, ?_, ?_, ?_, ?_, ?_, ?_, ?_, ?_, ?_, ?_, ?_, ?_, ?_, ?_, ?_, ?_⟩
  · intro u now uid s
    simp only [createUser, enqueue, if_true]
    split <;> rfl
  · intro u now s
    simp only [updateUser, enqueue, if_true]
    split <;> rfl
  · intro i s
    simp only [deleteUser, enqueue, if_true]
  · intro c now cid nid s
    simp only [createClient, enqueue, if_true]
    split <;> rfl
  · intro c now s
    simp only [updateClient, enqueue, if_true]
    split <;> rfl
  · intro r now rid nid s
    simp only [createReceipt, enqueue, if_true]
    split <;> rfl
  · intro r now s
    simp only [updateReceipt, enqueue, if_true]
  · intro i s
    simp only [deleteReceipt, enqueue, if_true]
  · intro e now eid s
    simp only [createExpense, enqueue, if_true]
    split <;> rfl
  · intro e now s
    simp only [updateExpense, enqueue, if_true]
  · intro i s
    simp only [deleteExpense, enqueue, if_true]
  · intro d now did s
    simp only [createDocument, enqueue, if_true]
    split <;> rfl
  · intro d now s
    simp only [updateDocument, enqueue, if_true]
  · intro i s
    simp only [deleteDocument, enqueue, if_true]
  · intro docId userId a now s
    cases hd : s.db.documents.find? (fun v => v.id == docId) <;>
      simp [logDocumentAccess, enqueue, hd]
  · intro i s
    cases hc : s.db.clients.find? (fun v => v.id == i) <;>
      simp [deleteClient, hc]
  · intro a aid s
    simp only [createActivity]
    split <;> rfl
  · intro n nid s
    simp only [createNotification]
    split <;> rfl
  · intro i s
    cases hn : s.db.notifications.find? (fun v => v.id == i) <;>
      simp [markNotificationAsRead, hn]
  · intro s
    rfl

/-- Counterexample to claim C1 as stated: createActivity commits a local
mutation (the activity is stored and the call resolves) yet appends zero
sync-queue entries, so a committed mutation exists with no corresponding
Outbox entry and outbox.size() undercounts the mutations since the last
drain. -/
theorem C1_counterexample :
    (createActivity act0 "a1" st0).1 = .ok ⟨"a1", "u1", "login", "d", 3⟩ ∧
    (createActivity act0 "a1" st0).2.db.activities.length = 1 ∧
    outboxSize (createActivity act0 "a1" st0).2 = 0 :=
  ⟨rfl, rfl, rfl⟩

/-- Claim C2 (code bug), evaluated at the failing input: deleteClient on
client c1 holding three receipts commits all four deletions atomically (the
client row is gone and no receipt referencing its cnic remains) yet the sync
queue receives zero delete entries instead of the four the claim requires —
the method contains no addToSyncQueue call at all. -/
theorem C2_deleteClient_cascade_eval :
    (deleteClient "c1" st2).1 = .ok () ∧
    (deleteClient "c1" st2).2.db.clients = [] ∧
    (deleteClient "c1" st2).2.db.receipts.filter
      (fun r => r.clientCnic == "1234567890123") = [] ∧
    outboxSize (deleteClient "c1" st2).2 = 0 :=
  ⟨rfl, rfl, rfl, rfl⟩

/-- Claim C6 (confirmed): for every mutating CRUD call that touches the sync
path, the outcome of the firebaseSync.addToSyncQueue promise (pushOk) is
swallowed by the .catch at the call site: the value returned to the caller
and the entire local database are identical whether the push path succeeds
or fails — a sync failure can never reject the caller's promise and is
observable only through the queue itself (getSyncStatus). -/
theorem C6_sync_failure_not_propagated :
    (∀ (u : UserNew) (now : Nat) (uid : String) (s : EngineState),
      (createUser u now uid true s).1 = (createUser u now uid false s).1 ∧
      (createUser u now uid true s).2.db = (createUser u now uid false s).2.db) ∧
    (∀ (u : User) (now : Nat) (s : EngineState),
      (updateUser u now true s).1 = (updateUser u now false s).1 ∧
      (updateUser u now true s).2.db = (updateUser u now false s).2.db) ∧
    (∀ (i : String) (s : EngineState),
      (deleteUser i true s).1 = (deleteUser i false s).1 ∧
      (deleteUser i true s).2.db = (deleteUser i false s).2.db) ∧
    (∀ (c : ClientNew) (now : Nat) (cid nid : String) (s : EngineState),
      (createClient c now cid nid true s).1 = (createClient c now cid nid false s).1 ∧
      (createClient c now cid nid true s).2.db = (createClient c now cid nid false s).2.db) ∧
    (∀ (c : Client) (now : Nat) (s : EngineState),
      (updateClient c now true s).1 = (updateClient c now false s).1 ∧
      (updateClient c now true s).2.db = (updateClient c now false s).2.db) ∧
    (∀ (r : ReceiptNew) (now : Nat) (rid nid : String) (s : EngineState),
      (createReceipt r now rid nid true s).1 = (createReceipt r now rid nid false s).1 ∧
      (createReceipt r now rid nid true s).2.db = (createReceipt r now rid nid false s).2.db) ∧
    (∀ (r : Receipt) (now : Nat) (s : EngineState),
      (updateReceipt r now true s).1 = (updateReceipt r now false s).1 ∧
      (updateReceipt r now true s).2.db = (updateReceipt r now false s).2.db) ∧
    (∀ (i : String) (s : EngineState),
      (deleteReceipt i true s).1 = (deleteReceipt i false s).1 ∧
      (deleteReceipt i true s).2.db = (deleteReceipt i false s).2.db) ∧
    (∀ (e : ExpenseNew) (now : Nat) (eid : String) (s : EngineState),
      (createExpense e now eid true s).1 = (createExpense e now eid false s).1 ∧
      (createExpense e now eid true s).2.db = (createExpense e now eid false s).2.db) ∧
    (∀ (e : Expense) (now : Nat) (s : EngineState),
      (updateExpense e now true s).1 = (updateExpense e now false s).1 ∧
      (updateExpense e now true s).2.db = (updateExpense e now false s).2.db) ∧
    (∀ (i : String) (s : EngineState),
      (deleteExpense i true s).1 = (deleteExpense i false s).1 ∧
      (deleteExpense i true s).2.db = (deleteExpense i false s).2.db) ∧
    (∀ (d : DocumentNew) (now : Nat) (did : String) (s : EngineState),
      (createDocument d now did true s).1 = (createDocument d now did false s).1 ∧
      (createDocument d now did true s).2.db = (createDocument d now did false s).2.db) ∧
    (∀ (d : Document) (now : Nat) (s : EngineState),
      (updateDocument d now true s).1 = (updateDocument d now false s).1 ∧
      (updateDocument d now true s).2.db = (updateDocument d now false s).2.db) ∧
    (∀ (i : String) (s : EngineState),
      (deleteDocument i true s).1 = (deleteDocument i false s).1 ∧
      (deleteDocument i true s).2.db = (deleteDocument i false s).2.db) ∧
    (∀ (docId userId : String) (a : AccessAction) (now : Nat) (s : EngineState),
      (logDocumentAccess docId userId a now true s).1 =
        (logDocumentAccess docId userId a now false s).1 ∧
      (logDocumentAccess docId userId a now true s).2.db =
        (logDocumentAccess docId userId a now false s).2.db) := by
  refine ⟨?_, ?_, ?_, ?_, ?_, ?_, ?_, ?_, ?_, ?_, ?_, ?_, ?_, ?_, ?_⟩
  · intro u now uid s
    cases hc : s.db.users.any (fun v => v.id == uid || v.username == u.username) <;>
      simp [createUser, hc]
  · intro u now s
    cases hc : s.db.users.any (fun v => v.id != u.id && v.username == u.username) <;>
      simp [updateUser, hc]
  · intro i s
    exact ⟨rfl, rfl⟩
  · intro c now cid nid s
    cases hc : (s.db.clients.any (fun v => v.id == cid || v.cnic == c.cnic)
        || s.db.notifications.any (fun v => v.id == nid)) <;>
      simp [createClient, hc]
  · intro c now s
    cases hc : s.db.clients.any (fun v => v.id != c.id && v.cnic == c.cnic) <;>
      simp [updateClient, hc]
  · intro r now rid nid s
    cases hc : (s.db.receipts.any (fun v => v.id == rid)
        || s.db.notifications.any (fun v => v.id == nid)) <;>
      simp [createReceipt, hc]
  · intro r now s
    exact ⟨rfl, rfl⟩
  · intro i s
    exact ⟨rfl, rfl⟩
  · intro e now eid s
    cases hc : s.db.expenses.any (fun v => v.id == eid) <;>
      simp [createExpense, hc]
  · intro e now s
    exact ⟨rfl, rfl⟩
  · intro i s
    exact ⟨rfl, rfl⟩
  · intro d now did s
    cases hc : s.db.documents.any (fun v => v.id == did) <;>
      simp [createDocument, hc]
  · intro d now s
    exact ⟨rfl, rfl⟩
  · intro i s
    exact ⟨rfl, rfl⟩
  · intro docId userId a now s
    cases hd : s.db.documents.find? (fun v => v.id == docId) <;>
      simp [logDocumentAccess, hd]

/-- Claim C7, amended (corrected): creates on users, clients, receipts,
expenses and documents assign the fresh id and stamp every timestamp field
(createdAt/updatedAt/uploadedAt and lastModified) with the creation time,
overriding anything the caller passed, and updates on those collections
store the record with lastModified refreshed (updateClient also refreshes
updatedAt); but createActivity and createNotification assign only the fresh
id — their record types carry no lastModified field, nothing else is
stamped, and the activity timestamp is stored exactly as the caller supplied
it. -/
theorem C7_timestamp_discipline :
    (∀ (u : UserNew) (now : Nat) (uid : String) (pushOk : Bool) (s : EngineState),
      s.db.users.any (fun v => v.id == uid || v.username == u.username) = false →
      (createUser u now uid pushOk s).1 =
        .ok ⟨uid, u.username, u.password, u.role, now, u.lastLogin, some now⟩) ∧
    (∀ (c : ClientNew) (now : Nat) (cid nid : String) (pushOk : Bool) (s : EngineState),
      (s.db.clients.any (fun v => v.id == cid || v.cnic == c.cnic)
        || s.db.notifications.any (fun v => v.id == nid)) = false →
      (createClient c now cid nid pushOk s).1 =
        .ok ⟨cid, c.name, c.cnic, c.password, c.type, c.phone, c.email, c.notes,
          now, now, some now⟩) ∧
    (∀ (r : ReceiptNew) (now : Nat) (rid nid : String) (pushOk : Bool) (s : EngineState),
      (s.db.receipts.any (fun v => v.id == rid)
        || s.db.notifications.any (fun v => v.id == nid)) = false →
      (createReceipt r now rid nid pushOk s).1 =
        .ok ⟨rid, r.clientName, r.clientCnic, r.amount, r.natureOfWork,
          r.paymentMethod, r.date, now, r.createdBy, some now⟩) ∧
    (∀ (e : ExpenseNew) (now : Nat) (eid : String) (pushOk : Bool) (s : EngineState),
      s.db.expenses.any (fun v => v.id == eid) = false →
      (createExpense e now eid pushOk s).1 =
        .ok ⟨eid, e.description, e.amount, e.category, e.date, now, e.createdBy,
          some now⟩) ∧
    (∀ (d : DocumentNew) (now : Nat) (did : String) (pushOk : Bool) (s : EngineState),
      s.db.documents.any (fun v => v.id == did) = false →
      (createDocument d now did pushOk s).1 =
        .ok ⟨did, d.clientCnic, d.fileName, d.fileType, d.fileSize, d.mimeType,
          d.encryptedData, d.tags, d.uploadedBy, now, d.lastAccessed, some now,
          [⟨d.uploadedBy, now, .upload⟩]⟩) ∧
    (∀ (u : User) (now : Nat) (pushOk : Bool) (s : EngineState),
      s.db.users.any (fun v => v.id != u.id && v.username == u.username) = false →
      (updateUser u now pushOk s).2.db.users.find? (fun x => x.id == u.id) =
        some { u with lastModified := some now }) ∧
    (∀ (c : Client) (now : Nat) (pushOk : Bool) (s : EngineState),
      s.db.clients.any (fun v => v.id != c.id && v.cnic == c.cnic) = false →
      (updateClient c now pushOk s).2.db.clients.find? (fun x => x.id == c.id) =
        some { c with updatedAt := now, lastModified := some now }) ∧
    (∀ (r : Receipt) (now : Nat) (pushOk : Bool) (s : EngineState),
      (updateReceipt r now pushOk s).2.db.receipts.find? (fun x => x.id == r.id) =
        some { r with lastModified := some now }) ∧
    (∀ (e : Expense) (now : Nat) (pushOk : Bool) (s : EngineState),
      (updateExpense e now pushOk s).2.db.expenses.find? (fun x => x.id == e.id) =
        some { e with lastModified := some now }) ∧
    (∀ (d : Document) (now : Nat) (pushOk : Bool) (s : EngineState),
      (updateDocument d now pushOk s).2.db.documents.find? (fun x => x.id == d.id) =
        some { d with lastModified := some now }) ∧
    (∀ (a : ActivityNew) (aid : String) (s : EngineState),
      s.db.activities.any (fun v => v.id == aid) = false →
      (createActivity a aid s).1 =
        .ok ⟨aid, a.userId, a.action, a.details, a.timestamp⟩) ∧
    (∀ (n : NotificationNew) (nid : String) (s : EngineState),
      s.db.notifications.any (fun v => v.id == nid) = false →
      (createNotification n nid s).1 =
        .ok ⟨nid, n.message, n.type, n.read, n.createdAt⟩) := by
  refine ⟨?_, ?_, ?_, ?_, ?_, ?_, ?_, ?_, ?_, ?_, ?_, ?_⟩
  · intro u now uid pushOk s h
    simp [createUser, h]
  · intro c now cid nid pushOk s h
    simp only [createClient, h]
    rfl
  · intro r now rid nid pushOk s h
    simp only [createReceipt, h]
    rfl
  · intro e now eid pushOk s h
    simp [createExpense, h]
  · intro d now did pushOk s h
    simp [createDocument, h]
  · intro u now pushOk s h
    simp only [updateUser, h]
    exact find?_putBy (fun v => v.id) { u with lastModified := some now } s.db.users
  · intro c now pushOk s h
    simp only [updateClient, h]
    exact find?_putBy (fun v => v.id)
      { c with updatedAt := now, lastModified := some now } s.db.clients
  · intro r now pushOk s
    exact find?_putBy (fun v => v.id) { r with lastModified := some now } s.db.receipts
  · intro e now pushOk s
    exact find?_putBy (fun v => v.id) { e with lastModified := some now } s.db.expenses
  · intro d now pushOk s
    exact find?_putBy (fun v => v.id) { d with lastModified := some now } s.db.documents
  · intro a aid s h
    simp [createActivity, h]
  · intro n nid s h
    simp [createNotification, h]

/-- Counterexample to claim C7 as stated: createActivity assigns only the
fresh id — the stored activity equals the caller's input verbatim apart from
the id, its timestamp field is the caller-supplied 3 rather than anything
freshly stamped, and the Activity record type carries no lastModified at all
(the uniform projection reads none), so the create neither assigns nor
refreshes a lastModified for the activities collection. -/
theorem C7_counterexample :
    (createActivity act0 "a2" st0).1 = .ok ⟨"a2", "u1", "login", "d", 3⟩ ∧
    (createActivity act0 "a2" st0).2.db.activities = [⟨"a2", "u1", "login", "d", 3⟩] ∧
    Activity.lastModifiedOf ⟨"a2", "u1", "login", "d", 3⟩ = none :=
  ⟨rfl, rfl, rfl⟩

/-- Sample inputs for the C7 witness. -/
def uNew0 : UserNew := ⟨"bob", "pw", .employee, none⟩

/-- Sample client input for the C7 witness. -/
def cNew0 : ClientNew := ⟨"Zed", "9990001112223", "pw", .secp, none, none, none⟩

/-- Sample receipt input for the C7 witness. -/
def rNew0 : ReceiptNew := ⟨"Zed", "9990001112223", 50, "work", .cash, 2, "u1"⟩

/-- Sample expense input for the C7 witness. -/
def eNew0 : ExpenseNew := ⟨"tea", 5, .food, 2, "u1"⟩

/-- Sample document input for the C7 witness. -/
def dNew0 : DocumentNew :=
  ⟨"9990001112223", "f.pdf", .invoice, 10, "application/pdf", "enc", [], "u1", none⟩

/-- Sample notification input for the C7 witness. -/
def nNew0 : NotificationNew := ⟨"hello", .info, false, 2⟩

/-- Witness for C7: every part instantiated at concrete inputs over the
empty store (all success side conditions discharged by computation). -/
theorem C7_witness :
    (createUser uNew0 4 "u9" true st0).1 =
      .ok ⟨"u9", "bob", "pw", .employee, 4, none, some 4⟩ ∧
    (createClient cNew0 4 "c9" "n9" true st0).1 =
      .ok ⟨"c9", "Zed", "9990001112223", "pw", .secp, none, none, none, 4, 4, some 4⟩ ∧
    (createReceipt rNew0 4 "r9" "n9" true st0).1 =
      .ok ⟨"r9", "Zed", "9990001112223", 50, "work", .cash, 2, 4, "u1", some 4⟩ ∧
    (createExpense eNew0 4 "e9" true st0).1 =
      .ok ⟨"e9", "tea", 5, .food, 2, 4, "u1", some 4⟩ ∧
    (createDocument dNew0 4 "d9" true st0).1 =
      .ok ⟨"d9", "9990001112223", "f.pdf", .invoice, 10, "application/pdf", "enc",
        [], "u1", 4, none, some 4, [⟨"u1", 4, .upload⟩]⟩ ∧
    (updateUser ⟨"u9", "bob", "pw", .employee, 4, none, some 4⟩ 6 true st0).2.db.users.find?
        (fun x => x.id == "u9") =
      some ⟨"u9", "bob", "pw", .employee, 4, none, some 6⟩ ∧
    (updateClient clientC1 6 true st2).2.db.clients.find? (fun x => x.id == "c1") =
      some ⟨"c1", "Ali", "1234567890123", "pw", .iris, none, none, none, 0, 6, some 6⟩ ∧
    (updateReceipt (receiptFor "r1") 6 true st2).2.db.receipts.find?
        (fun x => x.id == "r1") =
      some ⟨"r1", "Ali", "1234567890123", 100, "tax", .cash, 1, 1, "u1", some 6⟩ ∧
    (updateExpense ⟨"e9", "tea", 5, .food, 2, 4, "u1", some 4⟩ 6 true st0).2.db.expenses.find?
        (fun x => x.id == "e9") =
      some ⟨"e9", "tea", 5, .food, 2, 4, "u1", some 6⟩ ∧
    (updateDocument ⟨"d9", "9990001112223", "f.pdf", .invoice, 10, "application/pdf",
        "enc", [], "u1", 4, none, some 4, [⟨"u1", 4, .upload⟩]⟩ 6 true st0).2.db.documents.find?
        (fun x => x.id == "d9") =
      some ⟨"d9", "9990001112223", "f.pdf", .invoice, 10, "application/pdf", "enc",
        [], "u1", 4, none, some 6, [⟨"u1", 4, .upload⟩]⟩ ∧
    (createActivity act0 "a9" st0).1 = .ok ⟨"a9", "u1", "login", "d", 3⟩ ∧
    (createNotification nNew0 "n8" st0).1 = .ok ⟨"n8", "hello", .info, false, 2⟩ := by
  obtain ⟨h1, h2, h3, h4, h5, h6, h7, h8, h9, h10, h11, h12⟩ := C7_timestamp_discipline
  exact ⟨h1 uNew0 4 "u9" true st0 rfl,
    h2 cNew0 4 "c9" "n9" true st0 rfl,
    h3 rNew0 4 "r9" "n9" true st0 rfl,
    h4 eNew0 4 "e9" true st0 rfl,
    h5 dNew0 4 "d9" true st0 rfl,
    h6 ⟨"u9", "bob", "pw", .employee, 4, none, some 4⟩ 6 true st0 rfl,
    h7 clientC1 6 true st2 (by decide),
    h8 (receiptFor "r1") 6 true st2,
    h9 ⟨"e9", "tea", 5, .food, 2, 4, "u1", some 4⟩ 6 true st0,
    h10 ⟨"d9", "9990001112223", "f.pdf", .invoice, 10, "application/pdf", "enc",
      [], "u1", 4, none, some 4, [⟨"u1", 4, .upload⟩]⟩ 6 true st0,
    h11 act0 "a9" st0 rfl,
    h12 nNew0 "n8" st0 rfl⟩

/-- Claim C8 (confirmed): importing the snapshot produced by exportData back
into the store it was exported from restores the full engine state — every
collection record for record, the stores the snapshot does not carry
untouched, and the sync queue unchanged; moreover importData never touches
the sync queue, the employees/attendance stores or the sync metadata for any
snapshot and any state, so the snapshot path bypasses the Outbox entirely
(no definition on this path mentions enqueue). -/
theorem C8_export_import_roundtrip (s : EngineState) (now : Nat) (fresh : String)
    (ls : Option String)
    (hu : (s.db.users.map (fun v => v.id)).Nodup)
    (hc : (s.db.clients.map (fun v => v.id)).Nodup)
    (hr : (s.db.receipts.map (fun v => v.id)).Nodup)
    (he : (s.db.expenses.map (fun v => v.id)).Nodup)
    (ha : (s.db.activities.map (fun v => v.id)).Nodup)
    (hn : (s.db.notifications.map (fun v => v.id)).Nodup)
    (hd : (s.db.documents.map (fun v => v.id)).Nodup) :
    importData (exportData s now fresh ls).1 s = s ∧
    (∀ (snap : Snapshot) (t : EngineState),
      (importData snap t).outbox = t.outbox ∧
      (importData snap t).db.employees = t.db.employees ∧
      (importData snap t).db.attendance = t.db.attendance ∧
      (importData snap t).db.syncMeta = t.db.syncMeta) := by
  constructor
  · have h1 := addAll_nodup_eq (fun v : User => v.id) s.db.users [] (by simpa using hu)
    have h2 := addAll_nodup_eq (fun v : Client => v.id) s.db.clients [] (by simpa using hc)
    have h3 := addAll_nodup_eq (fun v : Receipt => v.id) s.db.receipts [] (by simpa using hr)
    have h4 := addAll_nodup_eq (fun v : Expense => v.id) s.db.expenses [] (by simpa using he)
    have h5 := addAll_nodup_eq (fun v : Activity => v.id) s.db.activities [] (by simpa using ha)
    have h6 := addAll_nodup_eq (fun v : Notification => v.id) s.db.notifications []
      (by simpa using hn)
    have h7 := addAll_nodup_eq (fun v : Document => v.id) s.db.documents [] (by simpa using hd)
    simp only [importData, exportData, h1, h2, h3, h4, h5, h6, h7, List.nil_append]
  · intro snap t
    exact ⟨rfl, rfl, rfl, rfl⟩

/-- A user populating the C8 witness state. -/
def userW : User := ⟨"u1", "admin", "pw", .admin, 0, none, some 0⟩

/-- Witness state for C8: one user, one client, one receipt and one queued
sync entry. -/
def stW : EngineState :=
  ⟨{ emptyDB with
      users := [userW]
      clients := [clientC1]
      receipts := [receiptFor "r1"] }, [⟨.create, "users", "u1"⟩]⟩

/-- A snapshot used to witness the frame part of C8 over a different state. -/
def snapW : Snapshot := ⟨[userW], [], [], [], [], [], [], 9, 7, "Arkive", "dev"⟩

/-- Witness for C8 at a concrete populated state. -/
theorem C8_witness :
    importData (exportData stW 9 "dev" none).1 stW = stW ∧
    (importData snapW st2).outbox = st2.outbox ∧
    (importData snapW st2).db.employees = st2.db.employees ∧
    (importData snapW st2).db.attendance = st2.db.attendance ∧
    (importData snapW st2).db.syncMeta = st2.db.syncMeta := by
  have h := C8_export_import_roundtrip stW 9 "dev" none (by decide) (by decide)
    (by decide) (by decide) (by decide) (by decide) (by decide)
  exact ⟨h.1, h.2 snapW st2⟩

/-- Claim C3, amended (corrected): a full resync wholesale-replaces each
local collection with the pulled remote contents — for every record id
present both locally and remotely, the post-resync store holds exactly the
remote version, with no comparison of lastModified on either side (so a
strictly newer local record is discarded too, and ties trivially resolve to
the remote).  Stated for the clients collection, over any remote pull in
which every per-store pull succeeded and the pulled client ids are
distinct. -/
theorem C3_resync_remote_wins (r : RemotePull) (s : EngineState) (p : PulledData)
    (hall : r.all = some p)
    (hnd : (p.clients.map (fun c => c.id)).Nodup)
    (cr : Client) (i : String) (hm : cr ∈ p.clients) (hk : cr.id = i)
    (cl : Client) (_hcl : cl ∈ s.db.clients) (_hcli : cl.id = i) :
    (syncFromFirebase r s).2.db.clients.find? (fun c => c.id == i) = some cr := by
  unfold syncFromFirebase
  rw [hall]
  have h1 := addAll_nodup_eq (fun v : Client => v.id) p.clients [] (by simpa using hnd)
  simp only [h1]
  exact find?_of_mem_nodup (fun c => c.id) p.clients cr i hnd hm hk

/-- The local version of client c1, strictly newer (lastModified 5). -/
def localC3 : Client :=
  ⟨"c1", "Ali", "1234567890123", "pw", .iris, none, none, none, 0, 0, some 5⟩

/-- The remote version of client c1, strictly older (lastModified 3). -/
def remoteC3 : Client :=
  ⟨"c1", "Ali Remote", "1234567890123", "pw", .iris, none, none, none, 0, 0, some 3⟩

/-- State holding only the newer local version of c1. -/
def st3 : EngineState := ⟨{ emptyDB with clients := [localC3] }, []⟩

/-- A fully successful remote pull whose clients store holds only the older
remote version of c1. -/
def rp3 : RemotePull :=
  ⟨some [], some [remoteC3], some [], some [], some [], some [], some [], some [],
    some []⟩

/-- Counterexample to claim C3 as stated: the same id c1 exists locally with
lastModified 5 and remotely with lastModified 3; max(t1, t2) = 5, so the
claim requires the resync to keep the local version, yet the resync stores
the remote record with lastModified 3 — the strictly greater local timestamp
loses. -/
theorem C3_counterexample :
    st3.db.clients.find? (fun c => c.id == "c1") = some localC3 ∧
    localC3.lastModified = some 5 ∧
    remoteC3.lastModified = some 3 ∧
    max 5 3 = 5 ∧
    (syncFromFirebase rp3 st3).2.db.clients.find? (fun c => c.id == "c1") =
      some remoteC3 ∧
    remoteC3 ≠ localC3 := by
  refine ⟨rfl, rfl, rfl, rfl, rfl, by decide⟩

/-- Witness for C3 at the concrete pull rp3 over the state st3. -/
theorem C3_witness :
    (syncFromFirebase rp3 st3).2.db.clients.find? (fun c => c.id == "c1") =
      some remoteC3 :=
  C3_resync_remote_wins rp3 st3
    ⟨[], [remoteC3], [], [], [], [], [], [], []⟩ rfl (by decide)
    remoteC3 "c1" (by decide) rfl localC3 (by decide) rfl

/-- Claim C4 (confirmed): when any one of the nine per-collection pulls of a
full resync fails, syncFromFirebase rejects and returns the engine state
exactly as it was — the pulls all happen (Promise.all) before any local
store is cleared, so no collection is partially replaced. -/
theorem C4_pull_failure_preserves_state (r : RemotePull) (s : EngineState)
    (h : r.users = none ∨ r.clients = none ∨ r.receipts = none ∨
      r.expenses = none ∨ r.activities = none ∨ r.notifications = none ∨
      r.documents = none ∨ r.employees = none ∨ r.attendance = none) :
    syncFromFirebase r s = (.error (), s) := by
  have hall : r.all = none := by
    obtain ⟨u, c, rc, e, a, n, d, em, att⟩ := r
    cases u <;> cases c <;> cases rc <;> cases e <;> cases a <;> cases n <;>
      cases d <;> cases em <;> cases att <;> first | rfl | simp_all
  unfold syncFromFirebase
  rw [hall]

/-- A remote pull whose users pull failed. -/
def rp4 : RemotePull :=
  ⟨none, some [], some [], some [], some [], some [], some [], some [], some []⟩

/-- Witness for C4: a failed users pull aborts the resync over the populated
state st2 without touching it. -/
theorem C4_witness : syncFromFirebase rp4 st2 = (.error (), st2) :=
  C4_pull_failure_preserves_state rp4 st2 (Or.inl rfl)

end Arkive
